import Mathlib

/-!
Verification of the AdvancedAudioEngine of obsidian-global-music-player
(src/music-block-processor.ts) against its natural-language specification.

The engine's data model and operations are shallowly embedded: pure
helpers become Lean functions over rationals (JS numbers carry no
overflow here and all constants are exact decimals), the mutable engine
state becomes explicit state passing, and the cooperative async
semantics of playBGM is modelled as a small-step machine whose atomic
segments are the source's code stretches between await points.
-/

namespace MusicPlayer

/-- JS falsy-defaulting `x || d` on an optional number: the default is
taken when the field is absent or when it is exactly 0 (0 is falsy). -/
def jsOr (v : Option ℚ) (d : ℚ) : ℚ :=
  match v with
  | none => d
  | some x => if x = 0 then d else x

/-- Track type tag, source field `type?: 'bgm' | 'sfx'`. -/
inductive AudioType
  | bgm
  | sfx
  deriving DecidableEq

/-- The AudioTrack descriptor of music-block-processor.ts (interface
AudioTrack, lines 491-508). Optional JS fields become Option. -/
structure AudioTrack where
  path : String
  name : String
  volume : Option ℚ := none
  loop : Option Bool := none
  fadeIn : Option ℚ := none
  fadeOut : Option ℚ := none
  type : Option AudioType := none
  priority : Option ℚ := none
  startTime : Option ℚ := none
  endTime : Option ℚ := none
  playbackRate : Option ℚ := none
  loopStart : Option ℚ := none
  loopEnd : Option ℚ := none
  applyRangeToLoop : Option Bool := none
  deriving DecidableEq

/-- Observable state of one HTMLAudioElement as the engine drives it. -/
structure AudioElemState where
  paused : Bool
  currentTime : ℚ
  volume : ℚ
  playbackRate : ℚ
  loop : Bool
  deriving DecidableEq

/-- The AudioInstance record (lines 510-520): one media handle plus the
engine's bookkeeping. fadeActive models the presence of fadeInterval. -/
structure AudioInstance where
  audio : AudioElemState
  track : AudioTrack
  targetVolume : ℚ
  currentVolume : ℚ
  type : AudioType
  fadeActive : Bool
  isLooping : Bool
  deriving DecidableEq

/-! ## Path resolver (resolveAudioPath, lines 877-912, and getMimeType) -/

/-- getMimeType (lines 914-925): extension of the last dot-segment,
lowercased, mapped through the fixed lookup table. -/
def getMimeType (filePath : String) : String :=
  let ext := ((filePath.splitOn ".").getLastD "").toLower
  if ext = "mp3" then "audio/mpeg"
  else if ext = "wav" then "audio/wav"
  else if ext = "ogg" then "audio/ogg"
  else if ext = "flac" then "audio/flac"
  else if ext = "m4a" then "audio/mp4"
  else if ext = "aac" then "audio/aac"
  else "audio/mpeg"

/-- The regex replace of backslashes by forward slashes applied to the
vault-relative full path (line 905). -/
def replaceBackslashes (s : String) : String :=
  String.mk (s.data.map (fun c => if c = '\\' then '/' else c))

/-- JS String.prototype.startsWith: the test string is a prefix of the
character sequence of the receiver. -/
def strStartsWith (s p : String) : Bool :=
  go s.data p.data
where
  go : List Char → List Char → Bool
  | _, [] => true
  | [], _ :: _ => false
  | c :: cs, d :: ds => if c = d then go cs ds else false

/-- resolveAudioPath (lines 877-912). External collaborators are passed
in: vaultRead is some blob URL when getAbstractFileByPath finds a TFile
and readBinary succeeds (the try block returns the object URL built
from the bytes), and none when the lookup fails, the file is not a
TFile, or the read throws (the catch swallows the error); basePath is
some s when the adapter exposes a basePath property (s may be empty,
matching the initial empty-string default). -/
def resolveAudioPath (vaultRead : Option String) (basePath : Option String)
    (path : String) : String :=
  if strStartsWith path "http://" || strStartsWith path "https://" then path
  else if strStartsWith path "data:" then path
  else
    match vaultRead with
    | some blobUrl => blobUrl
    | none =>
      let vaultPath := basePath.getD ""
      if vaultPath ≠ "" then
        "app://local/" ++ replaceBackslashes (vaultPath ++ "/" ++ path)
      else path

theorem replaceBackslashes_length (s : String) :
    (replaceBackslashes s).length = s.length := by
  unfold replaceBackslashes
  show (s.data.map _).length = s.data.length
  exact List.length_map _ _

/-- Claim C8: for every path beginning with http://, https:// or data:,
resolveAudioPath returns the input unchanged; for every other path,
when the file-read collaborator fails and a base path is configured it
returns a non-empty fallback string different from the raw input, and
when no base path is known it returns the raw input unchanged. -/
theorem resolveAudioPath_passthrough_and_fallback :
    (∀ vaultRead basePath path,
      (strStartsWith path "http://" = true ∨ strStartsWith path "https://" = true ∨
        strStartsWith path "data:" = true) →
      resolveAudioPath vaultRead basePath path = path)
    ∧ (∀ vaultPath path, vaultPath ≠ "" →
      strStartsWith path "http://" = false → strStartsWith path "https://" = false →
      strStartsWith path "data:" = false →
      resolveAudioPath none (some vaultPath) path ≠ "" ∧
      resolveAudioPath none (some vaultPath) path ≠ path)
    ∧ (∀ path,
      strStartsWith path "http://" = false → strStartsWith path "https://" = false →
      strStartsWith path "data:" = false →
      resolveAudioPath none none path = path) := by
  refine ⟨?_, ?_, ?_⟩
  · intro vaultRead basePath path h
    rcases h with h | h | h <;> simp [resolveAudioPath, h]
  · intro vaultPath path hv h1 h2 h3
    have hres : resolveAudioPath none (some vaultPath) path =
        "app://local/" ++ replaceBackslashes (vaultPath ++ "/" ++ path) := by
      simp [resolveAudioPath, h1, h2, h3, hv]
    have hlen : (resolveAudioPath none (some vaultPath) path).length =
        12 + (vaultPath.length + 1 + path.length) := by
      rw [hres, String.length_append, replaceBackslashes_length,
        String.length_append, String.length_append]
      have h12 : ("app://local/" : String).length = 12 := rfl
      have hsl : ("/" : String).length = 1 := rfl
      rw [h12, hsl]
    constructor
    · intro hcontra
      have h0 := hlen
      rw [hcontra] at h0
      rw [show ("" : String).length = 0 from rfl] at h0
      omega
    · intro hcontra
      have h0 := hlen
      rw [hcontra] at h0
      omega
  · intro path h1 h2 h3
    simp [resolveAudioPath, h1, h2, h3]

/-- Witness for C8 at concrete inputs: the https and data URLs pass
through, and a relative path with a failing read falls back (non-empty,
changed) when a base path exists and passes through otherwise. -/
theorem resolveAudioPath_witness :
    resolveAudioPath none none "https://x/y.mp3" = "https://x/y.mp3" ∧
    resolveAudioPath none none "data:audio/mp3;base64,AAA" = "data:audio/mp3;base64,AAA" ∧
    resolveAudioPath none (some "/vault") "music/a.mp3" ≠ "" ∧
    resolveAudioPath none (some "/vault") "music/a.mp3" ≠ "music/a.mp3" ∧
    resolveAudioPath none none "music/a.mp3" = "music/a.mp3" := by
  refine ⟨?_, ?_, ?_, ?_, ?_⟩
  · exact resolveAudioPath_passthrough_and_fallback.1 none none _ (Or.inr (Or.inl rfl))
  · exact resolveAudioPath_passthrough_and_fallback.1 none none _ (Or.inr (Or.inr rfl))
  · exact (resolveAudioPath_passthrough_and_fallback.2.1 "/vault" "music/a.mp3"
      (by decide) rfl rfl rfl).1
  · exact (resolveAudioPath_passthrough_and_fallback.2.1 "/vault" "music/a.mp3"
      (by decide) rfl rfl rfl).2
  · exact resolveAudioPath_passthrough_and_fallback.2.2 "music/a.mp3" rfl rfl rfl

/-! ## Volume ramp (fadeIn lines 716-750, fadeOut lines 753-786,
easeInOutQuad lines 789-791) -/

/-- easeInOutQuad (lines 789-791): `t < 0.5 ? 2*t*t : -1 + (4 - 2*t)*t`. -/
def easeInOutQuad (t : ℚ) : ℚ :=
  if t < 1/2 then 2 * t * t else (-1) + (4 - 2 * t) * t

/-- The shaping function as the specification words it:
`f(p) = 2p^2 for p < 0.5, else 1 - 2(1-p)^2`. Kept separate from the
source's expression so the two can be compared. -/
def specEaseInOutQuad (p : ℚ) : ℚ :=
  if p < 1/2 then 2 * p ^ 2 else 1 - 2 * (1 - p) ^ 2

/-- Elapsed-time fraction `Math.min(elapsed / duration, 1)` (lines 724, 760). -/
def fadeProgress (duration elapsed : ℚ) : ℚ :=
  min (elapsed / duration) 1

/-- Rounding to 3 decimal places, `Math.round(v * 1000) / 1000`
(lines 731, 767). Math.round and Mathlib round both round half up. -/
def round3 (q : ℚ) : ℚ :=
  (round (q * 1000) : ℤ) / 1000

/-- The rounded volume a fade-in tick assigns (lines 723-733):
eased interpolation from startVolume toward targetVolume. -/
def fadeInRounded (startVolume targetVolume duration elapsed : ℚ) : ℚ :=
  round3 (startVolume +
    (targetVolume - startVolume) * easeInOutQuad (fadeProgress duration elapsed))

/-- Net volume after one fade-in tick at a given elapsed time: the tick
assigns the rounded interpolated value, and when progress has reached 1
it immediately overwrites it with targetVolume exactly (lines 735-737). -/
def fadeInTick (startVolume targetVolume duration elapsed : ℚ) : ℚ :=
  if fadeProgress duration elapsed ≥ 1 then targetVolume
  else fadeInRounded startVolume targetVolume duration elapsed

/-- The rounded volume a fade-out tick assigns (lines 758-769):
`startVolume * (1 - eased)`, rounded, clamped below by 0 with Math.max. -/
def fadeOutRounded (startVolume duration elapsed : ℚ) : ℚ :=
  max (round3 (startVolume * (1 - easeInOutQuad (fadeProgress duration elapsed)))) 0

/-- Net volume after one fade-out tick: when progress reaches 1 or the
rounded value hits 0, the tick ends at exactly 0 (lines 771-773). -/
def fadeOutTick (startVolume duration elapsed : ℚ) : ℚ :=
  if fadeProgress duration elapsed ≥ 1 ∨ fadeOutRounded startVolume duration elapsed ≤ 0
  then 0
  else fadeOutRounded startVolume duration elapsed

theorem easeInOutQuad_eq_spec (t : ℚ) : easeInOutQuad t = specEaseInOutQuad t := by
  unfold easeInOutQuad specEaseInOutQuad
  split
  · ring
  · ring

theorem easeInOutQuad_mono {a b : ℚ} (ha : 0 ≤ a) (hab : a ≤ b) (hb : b ≤ 1) :
    easeInOutQuad a ≤ easeInOutQuad b := by
  unfold easeInOutQuad
  split
  case isTrue h1 =>
    split
    case isTrue h2 => nlinarith
    case isFalse h2 =>
      have hb2 : 1/2 ≤ b := le_of_not_lt h2
      nlinarith [mul_nonneg (by linarith : (0:ℚ) ≤ b - 1/2) (by linarith : (0:ℚ) ≤ 3/2 - b),
        mul_nonneg (by linarith : (0:ℚ) ≤ 1/2 - a) (by linarith : (0:ℚ) ≤ 1/2 + a)]
  case isFalse h1 =>
    have ha2 : 1/2 ≤ a := le_of_not_lt h1
    split
    case isTrue h2 => linarith
    case isFalse h2 =>
      nlinarith [mul_nonneg (by linarith : (0:ℚ) ≤ b - a) (by linarith : (0:ℚ) ≤ 2 - a - b)]

theorem easeInOutQuad_le_one {t : ℚ} (h0 : 0 ≤ t) (h1 : t ≤ 1) :
    easeInOutQuad t ≤ 1 := by
  unfold easeInOutQuad
  split
  case isTrue h => nlinarith
  case isFalse h => nlinarith [sq_nonneg (t - 1)]

theorem easeInOutQuad_nonneg {t : ℚ} (h0 : 0 ≤ t) (h1 : t ≤ 1) :
    0 ≤ easeInOutQuad t := by
  unfold easeInOutQuad
  split
  case isTrue h => nlinarith
  case isFalse h =>
    have h2 : 1/2 ≤ t := le_of_not_lt h
    nlinarith [mul_nonneg (by linarith : (0:ℚ) ≤ t - 1/2) (by linarith : (0:ℚ) ≤ 3/2 - t)]

theorem round3_mono {a b : ℚ} (h : a ≤ b) : round3 a ≤ round3 b := by
  unfold round3
  have hr : round (a * 1000) ≤ round (b * 1000) := by
    rw [round_eq, round_eq]
    exact Int.floor_le_floor (by linarith)
  have hc : ((round (a * 1000) : ℤ) : ℚ) ≤ ((round (b * 1000) : ℤ) : ℚ) := by
    exact_mod_cast hr
  linarith

theorem round3_le_add (v : ℚ) : round3 v ≤ v + 1/2000 := by
  unfold round3
  have h := abs_sub_round (v * 1000)
  have h2 := (abs_le.mp h).1
  have h3 : ((round (v * 1000) : ℤ) : ℚ) ≤ v * 1000 + 1/2 := by linarith
  linarith

theorem fadeProgress_nonneg {duration elapsed : ℚ} (hd : 0 < duration)
    (he : 0 ≤ elapsed) : 0 ≤ fadeProgress duration elapsed := by
  unfold fadeProgress
  have : 0 ≤ elapsed / duration := div_nonneg he (le_of_lt hd)
  exact le_min this (by norm_num)

theorem fadeProgress_le_one (duration elapsed : ℚ) :
    fadeProgress duration elapsed ≤ 1 :=
  min_le_right _ _

theorem fadeProgress_mono {duration e1 e2 : ℚ} (hd : 0 < duration)
    (h : e1 ≤ e2) : fadeProgress duration e1 ≤ fadeProgress duration e2 := by
  unfold fadeProgress
  exact min_le_min ((div_le_div_iff_of_pos_right hd).mpr h) (le_refl 1)

/-- Claim C4 counterexample: with target volume 0.0996 over 1000 ms, the
tick at 999 ms assigns round3(0.0996 * ease(0.999)) = 0.1, and the tick
at 1000 ms ends at the exact target 0.0996 — the assigned volume
sequence decreases between two successive ticks, so it is not
non-decreasing as the claim states. -/
theorem fadeIn_monotone_counterexample :
    (0 : ℚ) ≤ 996/10000 ∧ (996/10000 : ℚ) ≤ 1 ∧ (999 : ℚ) ≤ 1000 ∧
    fadeInTick 0 (996/10000) 1000 999 = 1/10 ∧
    fadeInTick 0 (996/10000) 1000 1000 = 996/10000 ∧
    fadeInTick 0 (996/10000) 1000 1000 < fadeInTick 0 (996/10000) 1000 999 := by
  have h999 : fadeInTick 0 (996/10000) 1000 999 = 1/10 := by
    unfold fadeInTick fadeInRounded round3 fadeProgress easeInOutQuad
    norm_num [round_eq, Int.floor_eq_iff]
  have h1000 : fadeInTick 0 (996/10000) 1000 1000 = 996/10000 := by
    unfold fadeInTick fadeProgress
    norm_num
  refine ⟨by norm_num, by norm_num, by norm_num, h999, h1000, ?_⟩
  rw [h999, h1000]
  norm_num

/-- Claim C4 (amended): during a fade-in the assigned volumes are
non-decreasing across all ticks strictly before the duration elapses;
at or after the duration the assigned volume equals the target exactly;
every assigned volume stays within 1/2000 (< the 0.001 tolerance) above
the target, so the one possible decrease — the final snap from the last
rounded value to the exact target — is below the rounding tolerance.
For a fade-out the assigned volumes are non-increasing throughout and
equal 0 at or after the duration. -/
theorem fade_monotonicity_amended :
    (∀ s t D e1 e2 : ℚ, 0 ≤ s → s ≤ t → 0 < D → 0 ≤ e1 → e1 ≤ e2 → e2 < D →
      fadeInTick s t D e1 ≤ fadeInTick s t D e2)
    ∧ (∀ s t D e : ℚ, 0 < D → D ≤ e → fadeInTick s t D e = t)
    ∧ (∀ s t D e : ℚ, 0 ≤ s → s ≤ t → 0 < D → 0 ≤ e →
      fadeInTick s t D e ≤ t + 1/2000)
    ∧ (∀ s D e1 e2 : ℚ, 0 ≤ s → 0 < D → 0 ≤ e1 → e1 ≤ e2 →
      fadeOutTick s D e2 ≤ fadeOutTick s D e1)
    ∧ (∀ s D e : ℚ, 0 < D → D ≤ e → fadeOutTick s D e = 0) := by
  refine ⟨?_, ?_, ?_, ?_, ?_⟩
  · intro s t D e1 e2 hs hst hd he1 h12 h2d
    have hx2 : e2 / D < 1 := (div_lt_one hd).mpr h2d
    have hp2 : fadeProgress D e2 < 1 := by
      rw [fadeProgress, min_eq_left (le_of_lt hx2)]
      exact hx2
    have hp1 : fadeProgress D e1 < 1 :=
      lt_of_le_of_lt (fadeProgress_mono hd h12) hp2
    rw [fadeInTick, if_neg (not_le.mpr hp1), fadeInTick, if_neg (not_le.mpr hp2)]
    apply round3_mono
    have hm := easeInOutQuad_mono (fadeProgress_nonneg hd he1)
      (fadeProgress_mono hd h12) (fadeProgress_le_one D e2)
    nlinarith
  · intro s t D e hd hde
    have hx : 1 ≤ e / D := (one_le_div hd).mpr hde
    rw [fadeInTick, if_pos]
    rw [fadeProgress, min_eq_right hx]
  · intro s t D e hs hst hd he
    rw [fadeInTick]
    split
    · linarith
    · have hp1 : fadeProgress D e ≤ 1 := fadeProgress_le_one D e
      have hp0 : 0 ≤ fadeProgress D e := fadeProgress_nonneg hd he
      have hle := easeInOutQuad_le_one hp0 hp1
      have hnn := easeInOutQuad_nonneg hp0 hp1
      have hv : s + (t - s) * easeInOutQuad (fadeProgress D e) ≤ t := by nlinarith
      calc fadeInRounded s t D e
          ≤ s + (t - s) * easeInOutQuad (fadeProgress D e) + 1/2000 :=
            round3_le_add _
        _ ≤ t + 1/2000 := by linarith
  · intro s D e1 e2 hs hd he1 h12
    by_cases h2 : fadeProgress D e2 ≥ 1 ∨ fadeOutRounded s D e2 ≤ 0
    · rw [fadeOutTick, if_pos h2, fadeOutTick]
      split
      · exact le_refl 0
      · exact le_max_right _ 0
    · rw [fadeOutTick, if_neg h2]
      push_neg at h2
      have hv : s * (1 - easeInOutQuad (fadeProgress D e2)) ≤
          s * (1 - easeInOutQuad (fadeProgress D e1)) := by
        have hm := easeInOutQuad_mono (fadeProgress_nonneg hd he1)
          (fadeProgress_mono hd h12) (fadeProgress_le_one D e2)
        nlinarith
      have hr : fadeOutRounded s D e2 ≤ fadeOutRounded s D e1 := by
        unfold fadeOutRounded
        exact max_le_max (round3_mono hv) (le_refl 0)
      rw [fadeOutTick]
      split
      · rename_i hcond
        rcases hcond with hp1 | hr1
        · exact absurd (le_trans hp1 (fadeProgress_mono hd h12)) (not_le.mpr h2.1)
        · exact le_trans hr hr1
      · exact hr
  · intro s D e hd hde
    have hx : 1 ≤ e / D := (one_le_div hd).mpr hde
    rw [fadeOutTick, if_pos]
    left
    rw [fadeProgress, min_eq_right hx]

/-- Witness for C4 at concrete inputs: the amended theorem applied to a
fade-in toward 0.7 over 1000 ms and a fade-out from 0.7 over 1000 ms. -/
theorem fade_monotonicity_witness :
    fadeInTick 0 (7/10) 1000 100 ≤ fadeInTick 0 (7/10) 1000 200 ∧
    fadeInTick 0 (7/10) 1000 1000 = 7/10 ∧
    fadeInTick 0 (7/10) 1000 500 ≤ 7/10 + 1/2000 ∧
    fadeOutTick (7/10) 1000 300 ≤ fadeOutTick (7/10) 1000 200 ∧
    fadeOutTick (7/10) 1000 1000 = 0 := by
  refine ⟨?_, ?_, ?_, ?_, ?_⟩
  · exact fade_monotonicity_amended.1 0 (7/10) 1000 100 200 (by norm_num)
      (by norm_num) (by norm_num) (by norm_num) (by norm_num) (by norm_num)
  · exact fade_monotonicity_amended.2.1 0 (7/10) 1000 1000 (by norm_num) (by norm_num)
  · exact fade_monotonicity_amended.2.2.1 0 (7/10) 1000 500 (by norm_num)
      (by norm_num) (by norm_num) (by norm_num)
  · exact fade_monotonicity_amended.2.2.2.1 (7/10) 1000 200 300 (by norm_num)
      (by norm_num) (by norm_num) (by norm_num)
  · exact fade_monotonicity_amended.2.2.2.2 (7/10) 1000 1000 (by norm_num) (by norm_num)

/-- Claim C5: every fade tick assigns the rounded value of
`from + (to - from) * f(p)` with `p = min(elapsed/duration, 1)` and f the
specification's ease-in-out quadratic, because the code's easing
expression `-1 + (4 - 2t)t` equals `1 - 2(1 - t)^2` for every t ≥ 0.5. -/
theorem fade_tick_formula_and_easing_identity :
    (∀ fromV toV duration elapsed : ℚ,
      fadeInRounded fromV toV duration elapsed =
        round3 (fromV + (toV - fromV) * specEaseInOutQuad (fadeProgress duration elapsed)))
    ∧ (∀ t : ℚ, 1/2 ≤ t → easeInOutQuad t = 1 - 2 * (1 - t) ^ 2) := by
  constructor
  · intro fromV toV duration elapsed
    unfold fadeInRounded
    rw [easeInOutQuad_eq_spec]
  · intro t ht
    unfold easeInOutQuad
    rw [if_neg (not_lt.mpr ht)]
    ring

/-- Witness for C5 at concrete inputs. -/
theorem fade_tick_formula_witness :
    fadeInRounded 0 1 1000 250 =
      round3 (0 + (1 - 0) * specEaseInOutQuad (fadeProgress 1000 250)) ∧
    easeInOutQuad (3/4) = 1 - 2 * (1 - 3/4) ^ 2 :=
  ⟨fade_tick_formula_and_easing_identity.1 0 1 1000 250,
   fade_tick_formula_and_easing_identity.2 (3/4) (by norm_num)⟩

/-! ## Instance construction (playBGM lines 561-603, playSFX lines 618-651) -/

/-- The element state playBGM configures (lines 573-591): loop is forced
off for manual range control, volume starts at 0, the playback rate is
applied only when truthy and within [0.25, 4.0], and the start position
is applied only when truthy and positive; paused is false once the
awaited play() has settled. -/
def mkBGMAudio (track : AudioTrack) : AudioElemState :=
  { paused := false
    currentTime :=
      match track.startTime with
      | some s => if s ≠ 0 ∧ 0 < s then s else 0
      | none => 0
    volume := 0
    playbackRate :=
      match track.playbackRate with
      | some r => if r ≠ 0 ∧ 1/4 ≤ r ∧ r ≤ 4 then r else 1
      | none => 1
    loop := false }

/-- The AudioInstance playBGM builds (lines 564-571): targetVolume is
`track.volume || globalVolume` and isLooping starts false. -/
def mkBGMInstance (track : AudioTrack) (globalVolume : ℚ) : AudioInstance :=
  { audio := mkBGMAudio track
    track := { track with type := some AudioType.bgm }
    targetVolume := jsOr track.volume globalVolume
    currentVolume := 0
    type := AudioType.bgm
    fadeActive := false
    isLooping := false }

/-- The element state playSFX configures (lines 630-632): native loop is
`track.loop || false`, volume starts at 0. -/
def mkSFXAudio (track : AudioTrack) : AudioElemState :=
  { paused := false
    currentTime := 0
    volume := 0
    playbackRate := 1
    loop := track.loop.getD false }

/-- The AudioInstance playSFX builds (lines 622-628); the isLooping field
is left unset there, i.e. falsy. -/
def mkSFXInstance (track : AudioTrack) (globalVolume : ℚ) : AudioInstance :=
  { audio := mkSFXAudio track
    track := { track with type := some AudioType.sfx }
    targetVolume := jsOr track.volume globalVolume
    currentVolume := 0
    type := AudioType.sfx
    fadeActive := false
    isLooping := false }

/-- Net effect of the tail of playBGM and playSFX on the new instance
(lines 598-603, 646-651): with a fade the ramp resolves only once the
element volume sits at exactly targetVolume and the timer is cleared
(fadeInTick at elapsed ≥ duration), without one the volume snaps to
targetVolume directly; either way the instance ends in this state. -/
def finishVolume (inst : AudioInstance) : AudioInstance :=
  { inst with
    audio := { inst.audio with volume := inst.targetVolume }
    currentVolume := inst.targetVolume
    fadeActive := false }

/-! ## Background slot (engine fields lines 523-533, forceStopBGM lines
671-693, playBGM lines 541-612, setVolume lines 949-959, rate transport
lines 1057-1068) -/

/-- The engine fields the background-slot operations manipulate. -/
structure EngineState where
  globalVolume : ℚ
  bgmInstance : Option AudioInstance
  isPlayingBGM : Bool
  audioManagerLock : Bool
  deriving DecidableEq

/-- Engine state right after construction (lines 523-538). -/
def initialEngine : EngineState :=
  { globalVolume := 7/10
    bgmInstance := none
    isPlayingBGM := false
    audioManagerLock := false }

/-- forceStopBGM (lines 671-693): pauses and resets the current element,
detaches its handlers, clears its fade timer, and empties the slot; all
effects on the old element die with the dropped reference. -/
def forceStopBGM (s : EngineState) : EngineState :=
  match s.bgmInstance with
  | some _ => { s with bgmInstance := none, isPlayingBGM := false }
  | none => s

/-- A point at which the awaited work inside playBGM's try block can
reject: the path resolution or the native play() call. -/
inductive FailPoint
  | atResolve
  | atPlay
  deriving DecidableEq

/-- playBGM (lines 541-612) as a sequential state transformer with
failure injection. The source takes the lock, cleans up unmanaged
elements, force-stops the old instance, awaits the path resolution,
builds the instance, awaits play(), installs the instance, brings the
volume up, and releases the lock in the finally block; a rejection at
either await lands in the catch (isPlayingBGM := false) and then the
finally. The slot is only assigned after play() succeeds. -/
def playBGMRun (s : EngineState) (track : AudioTrack) (failure : Option FailPoint) :
    EngineState :=
  let s1 := { s with audioManagerLock := true }
  let s2 := forceStopBGM s1
  if failure = some FailPoint.atResolve then
    { s2 with isPlayingBGM := false, audioManagerLock := false }
  else
    let inst := mkBGMInstance track s2.globalVolume
    if failure = some FailPoint.atPlay then
      { s2 with isPlayingBGM := false, audioManagerLock := false }
    else
      { s2 with
        bgmInstance := some (finishVolume inst)
        isPlayingBGM := true
        audioManagerLock := false }

/-- setVolume (lines 949-959): updates the global volume and pushes it to
the live BGM instance, writing the element volume immediately only when
no fade timer is running. -/
def setVolume (s : EngineState) (volume : ℚ) : EngineState :=
  let s1 := { s with globalVolume := volume }
  match s1.bgmInstance with
  | some i =>
    let i1 := { i with targetVolume := volume }
    let i2 :=
      if i1.fadeActive = false then
        { i1 with audio := { i1.audio with volume := volume }, currentVolume := volume }
      else i1
    { s1 with bgmInstance := some i2 }
  | none => s1

/-- setPlaybackRate (lines 1062-1068): applies only when an instance
exists and the rate is within [0.25, 4.0]; out-of-range requests change
nothing. -/
def setPlaybackRate (bgm : Option AudioInstance) (rate : ℚ) : Option AudioInstance :=
  match bgm with
  | some i =>
    if 1/4 ≤ rate ∧ rate ≤ 4 then
      some { i with
        audio := { i.audio with playbackRate := rate }
        track := { i.track with playbackRate := some rate } }
    else some i
  | none => none

/-- getPlaybackRate (lines 1057-1059): the live element's rate, 1.0 when
no instance exists. -/
def getPlaybackRate (bgm : Option AudioInstance) : ℚ :=
  match bgm with
  | some i => i.audio.playbackRate
  | none => 1

/-! ## Playback range control (setupPlaybackControl lines 833-874) -/

/-- The loop origin the source computes (lines 844 and 861):
`track.applyRangeToLoop ? (track.loopStart || track.startTime || 0) : 0`,
with JS falsy-or defaults. -/
def codeLoopOrigin (track : AudioTrack) : ℚ :=
  if track.applyRangeToLoop = some true then jsOr track.loopStart (jsOr track.startTime 0)
  else 0

/-- The loop origin as the specification words it:
`applyRangeToLoop ? (loopStart ?? startTime ?? 0) : 0` with nullish
coalescing; kept separate for comparison with codeLoopOrigin. -/
def specLoopOrigin (track : AudioTrack) : ℚ :=
  if track.applyRangeToLoop = some true then track.loopStart.getD (track.startTime.getD 0)
  else 0

/-- timeUpdateHandler (lines 837-855): once a truthy endTime is reached,
either seek to the loop origin and raise isLooping (loop not disabled),
or pause and reset to `startTime || 0`. -/
def timeUpdateHandler (inst : AudioInstance) : AudioInstance :=
  match inst.track.endTime with
  | some e =>
    if e ≠ 0 ∧ e ≤ inst.audio.currentTime then
      if inst.track.loop ≠ some false then
        { inst with
          audio := { inst.audio with currentTime := codeLoopOrigin inst.track }
          isLooping := true }
      else
        { inst with
          audio := { inst.audio with
            paused := true
            currentTime := jsOr inst.track.startTime 0 } }
    else inst
  | none => inst

/-- endedHandler (lines 858-867): on natural end-of-media, loop back and
resume only when looping is not disabled and the instance is not already
mid-loop via the position handler. -/
def endedHandler (inst : AudioInstance) : AudioInstance :=
  if inst.track.loop ≠ some false ∧ inst.isLooping = false then
    { inst with
      audio := { inst.audio with
        currentTime := codeLoopOrigin inst.track
        paused := false }
      isLooping := true }
  else inst

/-- Media events the handlers attached by setupPlaybackControl receive
(lines 869-870): a timeupdate fires after the position advanced, ended
fires at the natural end of the media. -/
inductive AudioEvent
  | timeUpdate (pos : ℚ)
  | ended

/-- One event dispatch against an instance's handlers. -/
def stepEvent (e : AudioEvent) (inst : AudioInstance) : AudioInstance :=
  match e with
  | AudioEvent.timeUpdate pos =>
      timeUpdateHandler { inst with audio := { inst.audio with currentTime := pos } }
  | AudioEvent.ended => endedHandler inst

/-- A plain track descriptor used for concrete witnesses. -/
def sampleTrack : AudioTrack :=
  { path := "music/a.mp3", name := "a" }

/-- Claim C2: for every playBGM call that fails mid-operation (path
resolution rejects or the native play call rejects), the background slot
is empty after the call and the operation lock is false after the call
returns in all cases: success, failure, or exception. -/
theorem playBGM_failure_slot_empty_lock_released :
    ∀ (s : EngineState) (track : AudioTrack) (failure : Option FailPoint),
      (playBGMRun s track failure).audioManagerLock = false ∧
      (failure ≠ none → (playBGMRun s track failure).bgmInstance = none) := by
  intro s track failure
  rcases failure with _ | f
  · constructor
    · simp [playBGMRun]
    · intro h
      exact absurd rfl h
  · rcases f <;>
      rcases h : s.bgmInstance with _ | i <;>
        simp [playBGMRun, forceStopBGM, h]

/-- Witness for C2: a failing resolve on the initial engine leaves the
lock released and the slot empty. -/
theorem playBGM_failure_witness :
    (playBGMRun initialEngine sampleTrack (some FailPoint.atResolve)).audioManagerLock = false ∧
    (playBGMRun initialEngine sampleTrack (some FailPoint.atResolve)).bgmInstance = none :=
  ⟨(playBGM_failure_slot_empty_lock_released initialEngine sampleTrack
      (some FailPoint.atResolve)).1,
   (playBGM_failure_slot_empty_lock_released initialEngine sampleTrack
      (some FailPoint.atResolve)).2 (by simp)⟩

/-- Track with an explicit loopStart of 0: startTime 10, endTime 20,
loopStart 0, applyRangeToLoop and loop enabled. -/
def rangeTrackZero : AudioTrack :=
  { path := "music/a.mp3", name := "a", loop := some true, startTime := some 10,
    endTime := some 20, loopStart := some 0, applyRangeToLoop := some true }

/-- Claim C3 counterexample: the claim computes the loop origin with
nullish coalescing, `loopStart ?? startTime ?? 0`, which is 0 for
rangeTrackZero; the code computes `loopStart || startTime || 0`, and the
falsy explicit 0 falls through to startTime, so reaching endTime seeks
to 10, not 0. -/
theorem timeUpdate_loopOrigin_counterexample :
    specLoopOrigin rangeTrackZero = 0 ∧
    (stepEvent (AudioEvent.timeUpdate 20)
        (mkBGMInstance rangeTrackZero (7/10))).audio.currentTime = 10 := by
  constructor
  · simp [specLoopOrigin, rangeTrackZero]
  · simp only [stepEvent, timeUpdateHandler, mkBGMInstance, mkBGMAudio,
      rangeTrackZero, codeLoopOrigin, jsOr]
    norm_num

/-- Claim C3 (amended): on a position tick with a truthy endTime reached,
the handler with looping enabled seeks to the loop origin computed with
JS falsy-or defaults — `applyRangeToLoop ? (loopStart || startTime || 0)
: 0`, where an explicit 0 falls through to the next default — and raises
isLooping; with looping disabled it pauses and resets to
`startTime || 0`. The code's falsy-or origin agrees with the claim's
nullish-coalescing origin whenever neither loopStart nor startTime is an
explicit 0. -/
theorem timeUpdate_range_amended (inst : AudioInstance) (e : ℚ)
    (he : inst.track.endTime = some e) (hne : e ≠ 0)
    (hge : e ≤ inst.audio.currentTime) :
    (inst.track.loop ≠ some false →
      timeUpdateHandler inst =
        { inst with
          audio := { inst.audio with currentTime := codeLoopOrigin inst.track }
          isLooping := true })
    ∧ (inst.track.loop = some false →
      timeUpdateHandler inst =
        { inst with
          audio := { inst.audio with
            paused := true
            currentTime := jsOr inst.track.startTime 0 } })
    ∧ (inst.track.loopStart ≠ some 0 → inst.track.startTime ≠ some 0 →
      codeLoopOrigin inst.track = specLoopOrigin inst.track) := by
  refine ⟨?_, ?_, ?_⟩
  · intro hloop
    unfold timeUpdateHandler
    rw [he]
    simp only
    rw [if_pos ⟨hne, hge⟩, if_pos hloop]
  · intro hloop
    unfold timeUpdateHandler
    rw [he]
    simp only
    rw [if_pos ⟨hne, hge⟩, if_neg (by simp [hloop])]
  · intro hls hst
    unfold codeLoopOrigin specLoopOrigin
    split
    · rcases h1 : inst.track.loopStart with _ | x
      · rcases h2 : inst.track.startTime with _ | y
        · simp [jsOr]
        · have hy : y ≠ 0 := fun hy0 => hst (hy0 ▸ h2)
          simp [jsOr, hy]
      · have hx : x ≠ 0 := fun hx0 => hls (hx0 ▸ h1)
        simp [jsOr, hx]
    · rfl

/-- The loop-range fidelity example of the specification: startTime 10,
endTime 20, loopStart 12, applyRangeToLoop and loop enabled. -/
def rangeTrack : AudioTrack :=
  { path := "music/a.mp3", name := "a", loop := some true, startTime := some 10,
    endTime := some 20, loopStart := some 12, applyRangeToLoop := some true }

/-- The BGM instance for rangeTrack at position 20 (endTime reached). -/
def rangeInst : AudioInstance :=
  { mkBGMInstance rangeTrack (7/10) with
    audio := { mkBGMAudio rangeTrack with currentTime := 20 } }

/-- Witness for C3: at position 20 the amended theorem yields a seek to
12 (not 0, not 10) with isLooping raised. -/
theorem timeUpdate_range_witness :
    (timeUpdateHandler rangeInst).audio.currentTime = 12 ∧
    (timeUpdateHandler rangeInst).isLooping = true := by
  have he : rangeInst.track.endTime = some 20 := rfl
  have h := (timeUpdate_range_amended rangeInst 20 he (by norm_num)
      (by rw [show rangeInst.audio.currentTime = 20 from rfl])).1
    (by simp [rangeInst, mkBGMInstance, rangeTrack])
  rw [h]
  constructor
  · show codeLoopOrigin rangeInst.track = 12
    simp only [codeLoopOrigin, rangeInst, mkBGMInstance, rangeTrack, jsOr]
    norm_num
  · rfl

/-- Claim C7: setPlaybackRate updates the rate exactly when a background
instance exists and the rate lies in [0.25, 4.0]; out-of-range rates
such as 5.0 and 0.1 leave everything unchanged (ignored, not clamped),
and 1.5 on a live instance updates the rate to 1.5. -/
theorem setPlaybackRate_guard :
    (∀ (i : AudioInstance) (r : ℚ), 1/4 ≤ r → r ≤ 4 →
      getPlaybackRate (setPlaybackRate (some i) r) = r)
    ∧ (∀ (bgm : Option AudioInstance) (r : ℚ),
      bgm = none ∨ r < 1/4 ∨ 4 < r → setPlaybackRate bgm r = bgm)
    ∧ (∀ i : AudioInstance,
      setPlaybackRate (some i) 5 = some i ∧
      setPlaybackRate (some i) (1/10) = some i ∧
      getPlaybackRate (setPlaybackRate (some i) (3/2)) = 3/2) := by
  refine ⟨?_, ?_, ?_⟩
  · intro i r h1 h2
    simp only [setPlaybackRate]
    rw [if_pos ⟨h1, h2⟩]
    rfl
  · intro bgm r h
    rcases bgm with _ | i
    · simp [setPlaybackRate]
    · rcases h with h | h | h
      · exact absurd h (by simp)
      · simp only [setPlaybackRate]
        rw [if_neg]
        rintro ⟨h3, -⟩
        exact absurd h (not_lt.mpr h3)
      · simp only [setPlaybackRate]
        rw [if_neg]
        rintro ⟨-, h4⟩
        exact absurd h (not_lt.mpr h4)
  · intro i
    refine ⟨?_, ?_, ?_⟩
    · simp only [setPlaybackRate]
      rw [if_neg]
      rintro ⟨-, h4⟩
      norm_num at h4
    · simp only [setPlaybackRate]
      rw [if_neg]
      rintro ⟨h4, -⟩
      norm_num at h4
    · simp only [setPlaybackRate]
      rw [if_pos ⟨by norm_num, by norm_num⟩]
      rfl

/-- A concrete live instance for the C7 witness. -/
def sampleInstance : AudioInstance := mkBGMInstance sampleTrack (7/10)

/-- Witness for C7: 5.0 and 0.1 are ignored, 1.5 is applied, and without
an instance nothing changes. -/
theorem setPlaybackRate_witness :
    getPlaybackRate (setPlaybackRate (some sampleInstance) (3/2)) = 3/2 ∧
    setPlaybackRate (some sampleInstance) 5 = some sampleInstance ∧
    setPlaybackRate (some sampleInstance) (1/10) = some sampleInstance ∧
    setPlaybackRate none (3/2) = none :=
  ⟨setPlaybackRate_guard.1 sampleInstance (3/2) (by norm_num) (by norm_num),
   (setPlaybackRate_guard.2.2 sampleInstance).1,
   (setPlaybackRate_guard.2.2 sampleInstance).2.1,
   setPlaybackRate_guard.2.1 none (3/2) (Or.inl rfl)⟩

/-- Claim C9: isLooping starts false at instance creation, every event
dispatch preserves a true isLooping (the handlers only ever assign
true), an ended event on an instance already marked looping is a no-op
(the natural-completion loop branch is never taken again), and the other
engine operations that touch the live instance (setVolume,
setPlaybackRate, the volume finish) never change the flag. -/
theorem isLooping_monotone :
    (∀ (track : AudioTrack) (g : ℚ), (mkBGMInstance track g).isLooping = false)
    ∧ (∀ (e : AudioEvent) (inst : AudioInstance),
      inst.isLooping = true → (stepEvent e inst).isLooping = true)
    ∧ (∀ inst : AudioInstance,
      inst.isLooping = true → stepEvent AudioEvent.ended inst = inst)
    ∧ (∀ (s : EngineState) (v : ℚ),
      ((setVolume s v).bgmInstance).map AudioInstance.isLooping =
        (s.bgmInstance).map AudioInstance.isLooping)
    ∧ (∀ (i : AudioInstance) (r : ℚ),
      (setPlaybackRate (some i) r).map AudioInstance.isLooping = some i.isLooping)
    ∧ (∀ i : AudioInstance, (finishVolume i).isLooping = i.isLooping) := by
  refine ⟨?_, ?_, ?_, ?_, ?_, ?_⟩
  · intro track g
    rfl
  · intro e inst h
    rcases e with pos | _
    · simp only [stepEvent]
      unfold timeUpdateHandler
      rcases hend : inst.track.endTime with _ | x
      · simp [h]
      · simp only
        split
        · split
          · rfl
          · simp [h]
        · simp [h]
    · simp only [stepEvent]
      unfold endedHandler
      split
      · rfl
      · simp [h]
  · intro inst h
    simp only [stepEvent]
    unfold endedHandler
    rw [if_neg]
    rintro ⟨-, h2⟩
    rw [h] at h2
    exact Bool.noConfusion h2
  · intro s v
    unfold setVolume
    rcases h : s.bgmInstance with _ | i
    · simp [h]
    · simp only [h]
      split <;> rfl
  · intro i r
    simp only [setPlaybackRate]
    split <;> rfl
  · intro i
    rfl

/-- An instance already marked as looping, for the C9 witness. -/
def loopedInst : AudioInstance :=
  { mkBGMInstance rangeTrack (7/10) with isLooping := true }

/-- Witness for C9: on a looping-marked instance a position tick keeps
the flag and an ended event changes nothing. -/
theorem isLooping_monotone_witness :
    (mkBGMInstance rangeTrack (7/10)).isLooping = false ∧
    (stepEvent (AudioEvent.timeUpdate 5) loopedInst).isLooping = true ∧
    stepEvent AudioEvent.ended loopedInst = loopedInst :=
  ⟨isLooping_monotone.1 rangeTrack (7/10),
   isLooping_monotone.2.1 (AudioEvent.timeUpdate 5) loopedInst rfl,
   isLooping_monotone.2.2.1 loopedInst rfl⟩

/-- Claim C10: a track whose volume field is exactly 0 yields an instance
whose targetVolume is the global volume — the `||` default fires on any
falsy volume, so an explicit 0 is indistinguishable from an absent
volume, for playBGM and playSFX instances alike. -/
theorem volume_zero_falsy_default :
    ∀ (track : AudioTrack) (g : ℚ),
      (mkBGMInstance { track with volume := some 0 } g).targetVolume = g ∧
      (mkSFXInstance { track with volume := some 0 } g).targetVolume = g ∧
      (mkBGMInstance { track with volume := some 0 } g).targetVolume =
        (mkBGMInstance { track with volume := none } g).targetVolume ∧
      (mkSFXInstance { track with volume := some 0 } g).targetVolume =
        (mkSFXInstance { track with volume := none } g).targetVolume := by
  intro track g
  refine ⟨?_, ?_, ?_, ?_⟩ <;> simp [mkBGMInstance, mkSFXInstance, jsOr]

/-! ## Effect pool (playSFX lines 615-652, stopAllSFX lines 708-713,
stopAudio lines 794-812) -/

/-- The sfxInstances Map as an insertion-ordered association list with
unique keys, as a JS Map is. -/
abbrev SfxMap := List (String × AudioInstance)

/-- Map.prototype.get. -/
def mapGet (m : SfxMap) (k : String) : Option AudioInstance :=
  match m with
  | [] => none
  | (k2, v) :: rest => if k2 = k then some v else mapGet rest k

/-- Map.prototype.set: replaces in place when the key exists, appends
otherwise. -/
def mapSet (m : SfxMap) (k : String) (v : AudioInstance) : SfxMap :=
  match m with
  | [] => [(k, v)]
  | (k2, v2) :: rest => if k2 = k then (k, v) :: rest else (k2, v2) :: mapSet rest k v

/-- Map.prototype.delete. -/
def mapDelete (m : SfxMap) (k : String) : SfxMap :=
  match m with
  | [] => []
  | (k2, v2) :: rest => if k2 = k then rest else (k2, v2) :: mapDelete rest k

/-- The key playSFX generates (line 621):
`` `${track.path}_${Date.now()}` `` — the path and the current
millisecond timestamp. -/
def sfxKey (path : String) (now : ℕ) : String :=
  path ++ "_" ++ toString now

/-- playSFX (lines 615-652) at its post-state: the new instance is
registered under its generated key once play() succeeded, and its volume
has been brought to targetVolume (by the fade or the direct snap). -/
def playSFXRun (m : SfxMap) (track : AudioTrack) (now : ℕ) (globalVolume : ℚ) : SfxMap :=
  mapSet m (sfxKey track.path now) (finishVolume (mkSFXInstance track globalVolume))

/-- The ended listener registered by playSFX (lines 635-638): it deletes
exactly its own key from the collection. -/
def endedCleanup (m : SfxMap) (k : String) : SfxMap :=
  mapDelete m k

/-- stopAudio (lines 794-812) on one instance: clears the fade timer,
detaches the playback-control handlers, pauses, and resets the
position. It does not touch the collection. -/
def stopAudio (inst : AudioInstance) : AudioInstance :=
  { inst with
    fadeActive := false
    audio := { inst.audio with paused := true, currentTime := 0 } }

/-- Stopping one tracked effect: stopAudio applied to that entry's
instance, the collection keys untouched — this is what stopAllSFX does
to each entry before the collection is cleared, applied to a single
entry. -/
def stopSfxAt (m : SfxMap) (k : String) : SfxMap :=
  m.map (fun p => if p.1 = k then (p.1, stopAudio p.2) else p)

/-- stopAllSFX (lines 708-713): stopAudio is applied to every tracked
instance and then Map.prototype.clear empties the collection; the
stopped instances are dropped with it, so the resulting collection is
empty whatever it held. -/
def stopAllSFX (_ : SfxMap) : SfxMap := []

/-- Track used for the SFX counterexample and witness. -/
def sfxTrackA : AudioTrack := { path := "hit.mp3", name := "hit" }

/-- A second, distinct track for the SFX witness. -/
def sfxTrackB : AudioTrack := { path := "ding.mp3", name := "ding" }

/-- Claim C6 counterexample: two playSFX calls with the same path in the
same millisecond generate the same key, so the second Map.set overwrites
the first entry — one entry, not two independent ones; and stopAllSFX
removes an entry from the collection without its media having ended,
so removal is not exactly on the natural 'ended' event. -/
theorem sfx_key_collision_counterexample :
    sfxKey sfxTrackA.path 100 = sfxKey sfxTrackA.path 100 ∧
    (playSFXRun (playSFXRun [] sfxTrackA 100 (7/10)) sfxTrackA 100 (7/10)).length = 1 ∧
    mapGet (playSFXRun [] sfxTrackA 100 (7/10)) (sfxKey sfxTrackA.path 100) ≠ none ∧
    mapGet (stopAllSFX (playSFXRun [] sfxTrackA 100 (7/10))) (sfxKey sfxTrackA.path 100) = none := by
  refine ⟨rfl, ?_, ?_, ?_⟩
  · simp [playSFXRun, mapSet]
  · simp [playSFXRun, mapSet, mapGet]
  · simp [stopAllSFX, mapGet]

/-- Claim C6 (amended): two playSFX calls whose generated keys differ
(distinct paths or distinct millisecond timestamps) produce two
independent entries; stopping one entry's audio leaves the other entry
and the collection untouched; the ended cleanup of a key removes exactly
that entry; same-key calls collide (the second overwrites the first),
and stopAllSFX clears every entry without any ended event. -/
theorem sfx_independence_amended (t1 t2 : AudioTrack) (n1 n2 : ℕ) (g : ℚ)
    (hk : sfxKey t1.path n1 ≠ sfxKey t2.path n2) :
    mapGet (playSFXRun (playSFXRun [] t1 n1 g) t2 n2 g) (sfxKey t1.path n1) =
      some (finishVolume (mkSFXInstance t1 g)) ∧
    mapGet (playSFXRun (playSFXRun [] t1 n1 g) t2 n2 g) (sfxKey t2.path n2) =
      some (finishVolume (mkSFXInstance t2 g)) ∧
    mapGet (stopSfxAt (playSFXRun (playSFXRun [] t1 n1 g) t2 n2 g) (sfxKey t1.path n1))
      (sfxKey t2.path n2) =
      some (finishVolume (mkSFXInstance t2 g)) ∧
    (stopSfxAt (playSFXRun (playSFXRun [] t1 n1 g) t2 n2 g) (sfxKey t1.path n1)).length =
      (playSFXRun (playSFXRun [] t1 n1 g) t2 n2 g).length ∧
    mapGet (endedCleanup (playSFXRun (playSFXRun [] t1 n1 g) t2 n2 g) (sfxKey t1.path n1))
      (sfxKey t1.path n1) = none ∧
    mapGet (endedCleanup (playSFXRun (playSFXRun [] t1 n1 g) t2 n2 g) (sfxKey t1.path n1))
      (sfxKey t2.path n2) =
      some (finishVolume (mkSFXInstance t2 g)) := by
  have hm : playSFXRun (playSFXRun [] t1 n1 g) t2 n2 g =
      [(sfxKey t1.path n1, finishVolume (mkSFXInstance t1 g)),
       (sfxKey t2.path n2, finishVolume (mkSFXInstance t2 g))] := by
    simp [playSFXRun, mapSet, hk]
  rw [hm]
  refine ⟨?_, ?_, ?_, ?_, ?_, ?_⟩
  · simp [mapGet]
  · simp [mapGet, hk]
  · have hstop : stopSfxAt
        [(sfxKey t1.path n1, finishVolume (mkSFXInstance t1 g)),
         (sfxKey t2.path n2, finishVolume (mkSFXInstance t2 g))] (sfxKey t1.path n1) =
        [(sfxKey t1.path n1, stopAudio (finishVolume (mkSFXInstance t1 g))),
         (sfxKey t2.path n2, finishVolume (mkSFXInstance t2 g))] := by
      simp [stopSfxAt, Ne.symm hk]
    rw [hstop]
    simp [mapGet, hk]
  · simp [stopSfxAt]
  · simp [endedCleanup, mapDelete, mapGet, Ne.symm hk]
  · simp [endedCleanup, mapDelete, mapGet, hk]

/-- Witness for C6: two same-path calls one millisecond apart produce two
entries; one is stoppable and removable independently of the other. -/
theorem sfx_independence_witness :
    mapGet (playSFXRun (playSFXRun [] sfxTrackA 100 (7/10)) sfxTrackA 101 (7/10))
      (sfxKey sfxTrackA.path 100) =
      some (finishVolume (mkSFXInstance sfxTrackA (7/10))) ∧
    mapGet (playSFXRun (playSFXRun [] sfxTrackA 100 (7/10)) sfxTrackA 101 (7/10))
      (sfxKey sfxTrackA.path 101) =
      some (finishVolume (mkSFXInstance sfxTrackA (7/10))) ∧
    mapGet (endedCleanup (playSFXRun (playSFXRun [] sfxTrackA 100 (7/10)) sfxTrackA 101 (7/10))
      (sfxKey sfxTrackA.path 100)) (sfxKey sfxTrackA.path 101) =
      some (finishVolume (mkSFXInstance sfxTrackA (7/10))) := by
  have h := sfx_independence_amended sfxTrackA sfxTrackA 100 101 (7/10) (by decide)
  exact ⟨h.1, h.2.1, h.2.2.2.2.2⟩

/-! ## Concurrency of playBGM (lines 541-612)

playBGM suspends only at its await points: the (conditional) await of
pendingBGMOperation, the path resolution, the native play() call, and
the optional fade; the code between two suspension points runs
atomically on the single-threaded event loop (spec section 5). The
field pendingBGMOperation (line 532) is declared and read (lines
545-547) but never assigned anywhere in the engine, so the lock check
at the top of playBGM never actually awaits anything. -/

namespace Concurrent

/-- One media element created by a playBGM call: its creation index and
whether it is currently audible (play() resolved and no pause since). -/
structure CAudio where
  id : ℕ
  playing : Bool
  deriving DecidableEq

/-- The engine fields the interleaving touches; pending mirrors
pendingBGMOperation, which no code path ever assigns. -/
structure CState where
  audioManagerLock : Bool
  pending : Option Unit
  bgmAudioId : Option ℕ
  isPlayingBGM : Bool
  audios : List CAudio
  nextId : ℕ
  deriving DecidableEq

/-- Program counter of one playBGM call: the await it is suspended at. -/
inductive PC
  | start
  | resolving
  | playing (myId : ℕ)
  | fading (myId : ℕ)
  | done
  deriving DecidableEq

/-- checkAndCleanupDuplicateAudio (lines 1017-1037): pause every playing
element not referenced by the manager. -/
def cleanupUnmanaged (s : CState) : CState :=
  { s with audios := s.audios.map (fun (a : CAudio) =>
      if s.bgmAudioId = some a.id then a
      else if a.playing then { a with playing := false } else a) }

/-- forceStopBGM (lines 671-693) acting on the interleaving state:
pauses the slot's element and empties the slot. -/
def cForceStop (s : CState) : CState :=
  match s.bgmAudioId with
  | some i =>
    { s with
      audios := s.audios.map (fun (a : CAudio) =>
        if a.id = i then { a with playing := false } else a)
      bgmAudioId := none
      isPlayingBGM := false }
  | none => s

/-- First segment (lines 543-561, up to the await of resolveAudioPath):
the guard awaits pendingBGMOperation only when the lock is held and the
promise is set — the latter never happens, so the call proceeds at
once: takes the lock, pauses unmanaged audio, force-stops the old BGM,
and suspends on path resolution. -/
def segStart (s : CState) : CState × PC :=
  if s.audioManagerLock ∧ s.pending.isSome then
    (s, PC.start)
  else
    let s1 := { s with audioManagerLock := true }
    let s2 := cleanupUnmanaged s1
    let s3 := cForceStop s2
    (s3, PC.resolving)

/-- Second segment (lines 562-594, up to the await of play()): the
element is created with volume 0 and native loop off, and play() is
initiated. -/
def segResolved (s : CState) : CState × PC :=
  let id := s.nextId
  ({ s with audios := s.audios ++ [{ id := id, playing := false }], nextId := id + 1 },
   PC.playing id)

/-- Third segment (lines 595-611, from play() resolving): the element is
now audible and the instance is installed in the slot; without a fade
the volume snaps and the finally block releases the lock, with a fade
the call suspends once more awaiting the ramp. -/
def segPlayed (hasFade : Bool) (myId : ℕ) (s : CState) : CState × PC :=
  let s1 := { s with audios := s.audios.map (fun (a : CAudio) =>
      if a.id = myId then { a with playing := true } else a) }
  let s2 := { s1 with bgmAudioId := some myId, isPlayingBGM := true }
  if hasFade then (s2, PC.fading myId)
  else ({ s2 with audioManagerLock := false }, PC.done)

/-- Fourth segment (fade resolved, lines 609-611): the finally block
releases the lock. -/
def segFaded (s : CState) : CState × PC :=
  ({ s with audioManagerLock := false }, PC.done)

/-- Advance one call by one atomic segment. -/
def stepCall (hasFade : Bool) (s : CState) (pc : PC) : CState × PC :=
  match pc with
  | PC.start => segStart s
  | PC.resolving => segResolved s
  | PC.playing i => segPlayed hasFade i s
  | PC.fading _ => segFaded s
  | PC.done => (s, PC.done)

/-- Two overlapping playBGM calls A and B over the shared engine state. -/
structure TwoCalls where
  state : CState
  pcA : PC
  pcB : PC
  deriving DecidableEq

/-- Which call the event loop resumes next. -/
inductive Who
  | A
  | B
  deriving DecidableEq

/-- Resume one of the two suspended calls for one atomic segment. -/
def schedStep (fadeA fadeB : Bool) (c : TwoCalls) (w : Who) : TwoCalls :=
  match w with
  | Who.A =>
    let r := stepCall fadeA c.state c.pcA
    { c with state := r.1, pcA := r.2 }
  | Who.B =>
    let r := stepCall fadeB c.state c.pcB
    { c with state := r.1, pcB := r.2 }

/-- Run a whole schedule. -/
def runSched (fadeA fadeB : Bool) : TwoCalls → List Who → TwoCalls
  | c, [] => c
  | c, w :: ws => runSched fadeA fadeB (schedStep fadeA fadeB c w) ws

/-- A fresh engine with both calls at their entry points. -/
def initTwoCalls : TwoCalls :=
  { state :=
      { audioManagerLock := false
        pending := none
        bgmAudioId := none
        isPlayingBGM := false
        audios := []
        nextId := 0 }
    pcA := PC.start
    pcB := PC.start }

/-- Number of media elements currently playing. -/
def playingCount (s : CState) : ℕ :=
  (s.audios.filter (fun a => a.playing)).length

end Concurrent

/-- Whether a track requests a fade-in: `track.fadeIn && track.fadeIn > 0`
(line 598). -/
def trackHasFadeIn (track : AudioTrack) : Bool :=
  match track.fadeIn with
  | some f => decide (f ≠ 0) && decide (0 < f)
  | none => false

/-- Claim C1, refuted by the code: pendingBGMOperation is never assigned,
so a playBGM call arriving while another is in flight proceeds at once
instead of awaiting it. In the schedule below call B enters while call
A awaits path resolution (B's program counter has advanced while A is
not done, with the lock held); B's force-stop finds an empty slot, A
installs and starts its element, and then B installs and starts a
second element without ever stopping A's. The run ends with two
background media elements playing at once, violating both the
serialization and the at-most-one-non-stopped invariant the claim
states. -/
theorem playBGM_concurrent_overlap_bug :
    trackHasFadeIn sampleTrack = false ∧
    (let mid := Concurrent.runSched (trackHasFadeIn sampleTrack) (trackHasFadeIn sampleTrack)
        Concurrent.initTwoCalls [Concurrent.Who.A, Concurrent.Who.B]
     mid.pcB = Concurrent.PC.resolving ∧ mid.pcA ≠ Concurrent.PC.done ∧
       mid.state.audioManagerLock = true) ∧
    (let final := Concurrent.runSched (trackHasFadeIn sampleTrack) (trackHasFadeIn sampleTrack)
        Concurrent.initTwoCalls
        [Concurrent.Who.A, Concurrent.Who.B, Concurrent.Who.A, Concurrent.Who.A,
         Concurrent.Who.B, Concurrent.Who.B]
     final.pcA = Concurrent.PC.done ∧ final.pcB = Concurrent.PC.done ∧
       Concurrent.playingCount final.state = 2) := by
  decide

end MusicPlayer
